import Mathlib

/-!
Shallow embedding of `src/tri-proof-assist/src/components/Canvas/Board.tsx`.

The Board component is a single React function component holding the whole
application state in `useState` hooks.  We model that state as an explicit
`BoardState` structure and every event handler of the component as a pure
state-transition function.  JavaScript numbers are modelled by `Rat`
(`ℚ`); where the code can produce `Infinity` or `NaN` (the fit-scale
division) we use the extended type `JsNum`.  JSON values produced by
`JSON.parse` / consumed by `JSON.stringify` are modelled by the `Json`
inductive; the text layer itself (`JSON.stringify` / `JSON.parse`) is the
external, faithful codec: a parse failure is modelled by feeding `none`
into the load handler.  `Date.now()` is an external input and is passed to
the click handler as an explicit natural-number timestamp (milliseconds).
-/

/-- Extended JavaScript number: a finite rational, `Infinity`, `-Infinity`
or `NaN`.  Negative zero is not modelled (no code path here distinguishes
it). -/
inductive JsNum where
  | finite (q : ℚ)
  | posInf
  | negInf
  | nan
deriving DecidableEq

/-- `Math.min` on two JavaScript numbers: `NaN` if either argument is
`NaN`, otherwise the smaller with `-Infinity < finite < Infinity`. -/
def jsMin : JsNum → JsNum → JsNum
  | .nan, _ => .nan
  | _, .nan => .nan
  | .negInf, _ => .negInf
  | _, .negInf => .negInf
  | .posInf, b => b
  | a, .posInf => a
  | .finite p, .finite q => .finite (min p q)

/-- `Math.max` on two JavaScript numbers (same `NaN` propagation). -/
def jsMax : JsNum → JsNum → JsNum
  | .nan, _ => .nan
  | _, .nan => .nan
  | .posInf, _ => .posInf
  | _, .posInf => .posInf
  | .negInf, b => b
  | a, .negInf => a
  | .finite p, .finite q => .finite (max p q)

/-- JavaScript division `a / b` of two finite numbers: ordinary division
for a nonzero divisor, signed infinity for `x / 0` with `x ≠ 0`, and `NaN`
for `0 / 0`. -/
def jsDiv (a b : ℚ) : JsNum :=
  if b ≠ 0 then .finite (a / b)
  else if 0 < a then .posInf
  else if a < 0 then .negInf
  else .nan

/-- Multiplication of a JavaScript number by a positive finite constant
(used with the zoom factor `1.2`). -/
def jsMulPos (a : JsNum) (c : ℚ) : JsNum :=
  match a with
  | .finite q => .finite (q * c)
  | .posInf => .posInf
  | .negInf => .negInf
  | .nan => .nan

/-- Division of a JavaScript number by a positive finite constant (used
with the zoom factor `1.2`). -/
def jsDivPos (a : JsNum) (c : ℚ) : JsNum :=
  match a with
  | .finite q => .finite (q / c)
  | .posInf => .posInf
  | .negInf => .negInf
  | .nan => .nan

/-- Board.tsx lines 76-78 (`handleImageImport`): the fit scale computed on
image import.  `scaleX = canvasSize.width / img.width`,
`scaleY = canvasSize.height / img.height`,
`scale = Math.min(scaleX, scaleY, 1)`.  There is no explicit
division-by-zero guard in the source; the JS semantics of division and
`Math.min` on `Infinity`/`NaN` is carried by `jsDiv`/`jsMin`. -/
def computeFitScale (canvasW canvasH imgW imgH : ℚ) : JsNum :=
  jsMin (jsDiv canvasW imgW) (jsMin (jsDiv canvasH imgH) (.finite 1))

/-- Board.tsx lines 122-124: `zoomIn` sets
`imageScale := Math.min(prev * 1.2, 3)`. -/
def jsZoomIn (prev : JsNum) : JsNum :=
  jsMin (jsMulPos prev 1.2) (.finite 3)

/-- Board.tsx lines 126-128: `zoomOut` sets
`imageScale := Math.max(prev / 1.2, 0.1)`. -/
def jsZoomOut (prev : JsNum) : JsNum :=
  jsMax (jsDivPos prev 1.2) (.finite 0.1)

/-- The finite-scale action of `jsZoomIn` (helper for reasoning about
iterated zooming; `jsZoomIn (.finite q) = .finite (qZoomIn q)` by
definition). -/
def qZoomIn (q : ℚ) : ℚ := min (q * 1.2) 3

/-- The finite-scale action of `jsZoomOut`. -/
def qZoomOut (q : ℚ) : ℚ := max (q / 1.2) 0.1

/-- A JSON value as produced by `JSON.parse`, together with the
JavaScript `undefined` value (`undefined`) returned by a property access on a
missing key, so that the truthiness-based defaulting of `handleLoad` can
be modelled directly. -/
inductive Json where
  | str (s : String)
  | num (q : ℚ)
  | bool (b : Bool)
  | null
  | undefined
  | arr (elems : List Json)
  | obj (fields : List (String × Json))

/-- JavaScript truthiness of a value: `''`, `0`, `false`, `null` and
`undefined` are falsy; every object and array (even empty) is truthy.
(`NaN` is also falsy in JS but cannot appear as a parsed field here.) -/
def jsTruthy : Json → Bool
  | .str s => decide (s ≠ "")
  | .num q => decide (q ≠ 0)
  | .bool b => b
  | .null => false
  | .undefined => false
  | .arr _ => true
  | .obj _ => true

/-- The JavaScript `a || b` defaulting idiom. -/
def jsOr (a b : Json) : Json := if jsTruthy a then a else b

/-- Property access `data.key`.  On an object receiver it looks the key
up, yielding `undefined` when the key is missing; on a string, number,
boolean or array receiver it yields `undefined` (no such own property);
on a `null` or `undefined` receiver JavaScript THROWS a TypeError, which
is modelled as `none`. -/
def Json.getField : Json → String → Option Json
  | .obj fields, k =>
    match fields.lookup k with
    | some v => some v
    | none => some .undefined
  | .null, _ => none
  | .undefined, _ => none
  | _, _ => some .undefined

/-- Whether a parsed value is JavaScript `null` (the one parse result on
which `handleLoad`'s first property access throws). -/
def Json.isNull : Json → Bool
  | .null => true
  | _ => false

/-- Board.tsx lines 8-15: the `TextAnnotation` interface.  (Lean name
shortened to `TextAnnot`.) -/
structure TextAnnot where
  id : String
  x : ℚ
  y : ℚ
  text : String
  color : String
  fontSize : ℚ
deriving DecidableEq

/-- Board.tsx lines 17-21: the `ProofStep` interface. -/
structure ProofStep where
  id : String
  because : String
  therefore : String
deriving DecidableEq

/-- The Project Document persisted by `handleSave` (Board.tsx lines
145-151): `imagePath`, `annotations`, `proofSteps`, `fontSize`,
`isDarkMode`.  An absent image is the empty string, the initial value of
the `imagePath` state hook. -/
structure ProjectDoc where
  imagePath : String
  annotations : List TextAnnot
  proofSteps : List ProofStep
  fontSize : ℚ
  isDarkMode : Bool
deriving DecidableEq

/-- JSON encoding of one annotation, as produced by `JSON.stringify` on a
`TextAnnotation` object. -/
def annToJson (a : TextAnnot) : Json :=
  .obj [("id", .str a.id), ("x", .num a.x), ("y", .num a.y),
        ("text", .str a.text), ("color", .str a.color),
        ("fontSize", .num a.fontSize)]

/-- JSON encoding of one proof step. -/
def stepToJson (p : ProofStep) : Json :=
  .obj [("id", .str p.id), ("because", .str p.because),
        ("therefore", .str p.therefore)]

/-- Board.tsx lines 145-151 (`handleSave`): the serialized project state
`JSON.stringify({imagePath, annotations, proofSteps, fontSize,
isDarkMode})`, modelled at the JSON-value level (the stringify/parse text
codec is the faithful external layer). -/
def serialize (d : ProjectDoc) : Json :=
  .obj [("imagePath", .str d.imagePath),
        ("annotations", .arr (d.annotations.map annToJson)),
        ("proofSteps", .arr (d.proofSteps.map stepToJson)),
        ("fontSize", .num d.fontSize),
        ("isDarkMode", .bool d.isDarkMode)]

/-- Reads a string-valued JSON field. -/
def decodeStr : Json → Option String
  | .str s => some s
  | _ => none

/-- Reads a number-valued JSON field. -/
def decodeNum : Json → Option ℚ
  | .num q => some q
  | _ => none

/-- Reads a boolean-valued JSON field. -/
def decodeBool : Json → Option Bool
  | .bool b => some b
  | _ => none

/-- Decodes one annotation element of `data.annotations`.  The TypeScript
code performs no validation here (the parsed objects are stored as-is);
returning `none` on an ill-typed element is the typed-embedding rendering
of a value the untyped code would carry along as garbage. -/
def decodeAnnot (j : Json) : Option TextAnnot := do
  let i ← decodeStr (← j.getField "id")
  let x ← decodeNum (← j.getField "x")
  let y ← decodeNum (← j.getField "y")
  let t ← decodeStr (← j.getField "text")
  let c ← decodeStr (← j.getField "color")
  let f ← decodeNum (← j.getField "fontSize")
  return ⟨i, x, y, t, c, f⟩

/-- Decodes one proof-step element of `data.proofSteps`. -/
def decodeStep (j : Json) : Option ProofStep := do
  let i ← decodeStr (← j.getField "id")
  let b ← decodeStr (← j.getField "because")
  let t ← decodeStr (← j.getField "therefore")
  return ⟨i, b, t⟩

/-- Decodes every element of a list (plain structural recursion so that
proofs and kernel evaluation are straightforward). -/
def decAll (f : Json → Option α) : List Json → Option (List α)
  | [] => some []
  | j :: js => do
      let a ← f j
      let as ← decAll f js
      return a :: as

/-- Decodes a JSON value that must be an array. -/
def decArr (f : Json → Option α) : Json → Option (List α)
  | .arr xs => decAll f xs
  | _ => none

/-- The `imagePath` treatment of `handleLoad` (Board.tsx line 174): the
field participates only through its truthiness — a falsy field (absent or
`''`) leaves the image reference at the `''` default, a truthy field must
be a string path.  (A truthy non-string field would be handed to
`read_image_as_base64`, whose argument deserialization rejects it; this
model returns `none` and no claim is settled in that region.) -/
def decodePath (j : Json) : Option String :=
  if jsTruthy j then decodeStr j else some ""

/-- Board.tsx lines 172-187 (`handleLoad`), field extraction on the parsed
value, in source order: the truthiness test on `data.imagePath` (line
174), then `data.annotations || []`, `data.proofSteps || []`,
`data.fontSize || 28`, `data.isDarkMode || false` (lines 184-187).  This
is the document-level deserializer; the surrounding I/O is in `loadEvent`.
`none` arises either because a property access threw (`data` is `null`,
via `Json.getField`) or because a present, truthy field is ill-typed — the
TypeScript code performs no validation and would commit such raw values to
state; `loadEvent` distinguishes the two cases. -/
def deserialize (data : Json) : Option ProjectDoc := do
  let ip ← decodePath (← data.getField "imagePath")
  let anns ← decArr decodeAnnot (jsOr (← data.getField "annotations") (.arr []))
  let steps ← decArr decodeStep (jsOr (← data.getField "proofSteps") (.arr []))
  let fs ← decodeNum (jsOr (← data.getField "fontSize") (.num 28))
  let dm ← decodeBool (jsOr (← data.getField "isDarkMode") (.bool false))
  return ⟨ip, anns, steps, fs, dm⟩

/-- A decoded bitmap: the natural width and height of an
`HTMLImageElement` once loaded. -/
structure ImgData where
  width : ℚ
  height : ℚ
deriving DecidableEq

/-- The complete mutable state of the Board component: one field per
`useState` hook (Board.tsx lines 24-35). -/
structure BoardState where
  backgroundImage : Option ImgData
  imagePath : String
  annotations : List TextAnnot
  selectedId : Option String
  currentColor : String
  pendingText : String
  canvasW : ℚ
  canvasH : ℚ
  imageScale : JsNum
  offsetX : ℚ
  offsetY : ℚ
  fontSize : ℚ
  isDarkMode : Bool
  proofSteps : List ProofStep
deriving DecidableEq

/-- The initial hook values (Board.tsx lines 24-35): no image, empty path,
no annotations, nothing selected, red pen, no pending text, 800×600
canvas, scale 1, offset 0, font size 28, light mode, no proof steps. -/
def initState : BoardState :=
  { backgroundImage := none
    imagePath := ""
    annotations := []
    selectedId := none
    currentColor := "#FF0000"
    pendingText := ""
    canvasW := 800
    canvasH := 600
    imageScale := .finite 1
    offsetX := 0
    offsetY := 0
    fontSize := 28
    isDarkMode := false
    proofSteps := [] }

/-- Board.tsx lines 199-203: the `React.useEffect(..., [])` that runs
exactly once, after the first render, and seeds one blank proof step when
the list is empty.  Its dependency array is empty, so it never re-runs
after later state changes (in particular not after a load). -/
def mountEffect (s : BoardState) : BoardState :=
  if s.proofSteps = [] then { s with proofSteps := [⟨"1", "", ""⟩] } else s

/-- The identity given to a new annotation (Board.tsx line 102):
the template string `text-${Date.now()}`, with the clock reading passed in
as an explicit natural number of milliseconds. -/
def mkAnnId (now : ℕ) : String := "text-" ++ toString now

/-- Board.tsx lines 93-113 (`handleCanvasClick`): with no pending text the
click returns immediately; otherwise a new annotation is appended at the
pointer position with the pending text, current color and font size, it
becomes the selection, and the pending text is cleared.  The pointer
position is an event input (the `pointerPos` null-check models a click
that produced no position, i.e. no event at all). -/
def handleCanvasClick (s : BoardState) (now : ℕ) (x y : ℚ) : BoardState :=
  if s.pendingText = "" then s
  else
    let newAnnot : TextAnnot :=
      { id := mkAnnId now, x := x, y := y, text := s.pendingText
        color := s.currentColor, fontSize := s.fontSize }
    { s with annotations := s.annotations ++ [newAnnot]
             selectedId := some newAnnot.id
             pendingText := "" }

/-- Board.tsx line 237: clicking a template button toggles the pending
text — arming the already armed token disarms it, any other token replaces
it. -/
def armToken (s : BoardState) (tok : String) : BoardState :=
  { s with pendingText := if s.pendingText = tok then "" else tok }

/-- Board.tsx lines 62-91 (`handleImageImport`), success path: once the
picked image has decoded, the handler stores the bitmap and path, sets the
fit scale computed from the current canvas size, and clears the
annotations.  Note that `selectedId` is not touched. -/
def handleImageImport (s : BoardState) (path : String) (img : ImgData) : BoardState :=
  { s with backgroundImage := some img
           imagePath := path
           imageScale := computeFitScale s.canvasW s.canvasH img.width img.height
           annotations := [] }

/-- Board.tsx lines 115-120 (`clearCanvas`), confirmed branch: empties the
annotations and the selection. -/
def clearCanvas (s : BoardState) : BoardState :=
  { s with annotations := [], selectedId := none }

/-- Board.tsx lines 130-135 (`deleteSelectedAnnotation`): removes the
selected annotation, if any, and clears the selection. -/
def deleteSelected (s : BoardState) : BoardState :=
  match s.selectedId with
  | some i =>
      { s with annotations := s.annotations.filter (fun a => a.id ≠ i)
               selectedId := none }
  | none => s

/-- Board.tsx lines 137-141 (`updateAnnotationText`): replaces the text of
the annotation with the given identity (empty text permitted). -/
def updateAnnotText (s : BoardState) (i : String) (newText : String) : BoardState :=
  { s with annotations :=
      s.annotations.map (fun a => if a.id = i then { a with text := newText } else a) }

/-- Board.tsx lines 408-414 (the `onDragEnd` callback): writes the
drag-end position into the annotation whose identity matches, leaving
every other annotation untouched. -/
def onDragEnd (s : BoardState) (i : String) (nx ny : ℚ) : BoardState :=
  { s with annotations :=
      s.annotations.map (fun a => if a.id = i then { a with x := nx, y := ny } else a) }

/-- Board.tsx lines 379-383: a mouse-down on the empty stage clears the
selection. -/
def stageMouseDown (s : BoardState) : BoardState :=
  { s with selectedId := none }

/-- Board.tsx lines 165-194 (`handleLoad`): `parsed` is the result of
`JSON.parse` on the file text (`none` = the parse threw), `imageReadOk`
tells whether `read_image_as_base64` on a truthy `data.imagePath`
succeeded (a failure throws out of the `try` before any state is set), and
`decodedImg` is the bitmap delivered by the asynchronous `img.onload` (or
`none` if decoding never completes).

The result is `some (s', flag)` for every run the typed state space can
represent: `flag` is true when the catch branch ran (the `alert` failure
notification) and the state is then untouched.  Three real behaviors are
caught failures: the parse threw; the parsed value is `null`, so the very
first property access `data.imagePath` threw a TypeError; or a truthy
image path could not be read.  On success the annotations, proof steps,
font size and dark-mode flag are replaced by the decoded document fields
and the selection is cleared; the image path and bitmap are updated only
by the `onload` callback.  The result is `none` when the parsed value is
a non-`null` value on which `deserialize` fails, i.e. some present truthy
field is ill-typed: there the code signals no failure and commits the raw
values to state, which this typed embedding cannot represent — the model
makes no statement about such runs. -/
def loadEvent (s : BoardState) (parsed : Option Json) (imageReadOk : Bool)
    (decodedImg : Option ImgData) : Option (BoardState × Bool) :=
  match parsed with
  | none => some (s, true)
  | some data =>
    if data.isNull then some (s, true)
    else
      match deserialize data with
      | none => none
      | some d =>
        if d.imagePath ≠ "" ∧ imageReadOk = false then some (s, true)
        else
          some ({ s with
              imagePath :=
                if d.imagePath ≠ "" ∧ decodedImg.isSome then d.imagePath else s.imagePath
              backgroundImage :=
                if d.imagePath ≠ "" ∧ decodedImg.isSome then decodedImg else s.backgroundImage
              annotations := d.annotations
              proofSteps := d.proofSteps
              fontSize := d.fontSize
              isDarkMode := d.isDarkMode
              selectedId := none }, false)

/-! ## Helper lemmas -/

/-- Mapping a function that fixes every member of a list is the identity
on that list. -/
theorem map_fix_eq_self {α : Type} (f : α → α) :
    ∀ (l : List α), (∀ a ∈ l, f a = a) → l.map f = l
  | [], _ => rfl
  | a :: t, h => by
      rw [List.map_cons, h a (List.mem_cons_self a t),
        map_fix_eq_self f t (fun b hb => h b (List.mem_cons_of_mem a hb))]

/-- Decoding an encoded annotation recovers it. -/
theorem decodeAnnot_annToJson (a : TextAnnot) : decodeAnnot (annToJson a) = some a := rfl

/-- Decoding an encoded proof step recovers it. -/
theorem decodeStep_stepToJson (p : ProofStep) : decodeStep (stepToJson p) = some p := rfl

/-- Element-wise decoding inverts element-wise encoding. -/
theorem decAll_map {α : Type} (f : Json → Option α) (g : α → Json)
    (h : ∀ a, f (g a) = some a) :
    ∀ (l : List α), decAll f (l.map g) = some l
  | [] => rfl
  | a :: t => by
      rw [List.map_cons]
      simp [decAll, h a, decAll_map f g h t]

/-- Evaluation of a successful load: when the parsed value decodes to a
document and any truthy image path is readable, the handler commits the
decoded fields, clears the selection and signals no failure. -/
theorem loadEvent_success (s : BoardState) (j : Json) (ok : Bool)
    (img : Option ImgData) (d : ProjectDoc)
    (hd : deserialize j = some d) (him : d.imagePath ≠ "" → ok = true) :
    loadEvent s (some j) ok img =
      some ({ s with
          imagePath :=
            if d.imagePath ≠ "" ∧ img.isSome then d.imagePath else s.imagePath
          backgroundImage :=
            if d.imagePath ≠ "" ∧ img.isSome then img else s.backgroundImage
          annotations := d.annotations
          proofSteps := d.proofSteps
          fontSize := d.fontSize
          isDarkMode := d.isDarkMode
          selectedId := none }, false) := by
  have hnn : j.isNull = false := by
    cases j <;> first
      | rfl
      | simp [deserialize, Json.getField] at hd
  have hng : ¬(d.imagePath ≠ "" ∧ ok = false) := by
    rintro ⟨h1, h2⟩
    rw [him h1] at h2
    exact Bool.noConfusion h2
  simp only [loadEvent, hnn, Bool.false_eq_true, if_false, hd, if_neg hng]

/-! ## C9: move is a no-op on a missing identity -/

/-- C9 (confirmed): for every store state, every identity not present in
the store, and every position, the drag-end update `move(id, pos)` leaves
the store's full annotation list exactly unchanged — every annotation's
every field identical, in the same order. -/
theorem c9_move_noop (s : BoardState) (i : String) (nx ny : ℚ)
    (h : ∀ a ∈ s.annotations, a.id ≠ i) :
    (onDragEnd s i nx ny).annotations = s.annotations := by
  simp only [onDragEnd]
  exact map_fix_eq_self _ s.annotations (fun a ha => if_neg (h a ha))

/-- C9 witness: the concrete one-annotation store is untouched by a move
aimed at an identity it does not contain. -/
theorem c9_move_noop_witness :
    (onDragEnd
        { initState with annotations := [⟨"text-7", 1, 2, "A", "#FF0000", 28⟩] }
        "text-9" 5 6).annotations
      = [⟨"text-7", 1, 2, "A", "#FF0000", 28⟩] :=
  c9_move_noop
    { initState with annotations := [⟨"text-7", 1, 2, "A", "#FF0000", 28⟩] }
    "text-9" 5 6 (by decide)

/-! ## C10: a successful load clears the selection -/

/-- C10 (confirmed): for every prior state and every successfully loaded
document, the load completes with no failure signalled and the selection
is none immediately afterwards.  Success means: the text parsed, the
document decoded, and any truthy image path was readable. -/
theorem c10_load_selection_none (s : BoardState) (j : Json) (ok : Bool)
    (img : Option ImgData) (d : ProjectDoc)
    (hd : deserialize j = some d) (him : d.imagePath ≠ "" → ok = true) :
    ∃ s', loadEvent s (some j) ok img = some (s', false) ∧ s'.selectedId = none :=
  ⟨_, loadEvent_success s j ok img d hd him, rfl⟩

/-- C10 witness: loading an empty document over a state with an active
selection succeeds and leaves the selection none. -/
theorem c10_load_selection_none_witness :
    ∃ s', loadEvent { initState with selectedId := some "text-1" }
        (some (serialize ⟨"", [], [], 28, false⟩)) false none = some (s', false) ∧
      s'.selectedId = none :=
  c10_load_selection_none { initState with selectedId := some "text-1" }
    (serialize ⟨"", [], [], 28, false⟩) false none ⟨"", [], [], 28, false⟩
    (by decide) (fun h => absurd rfl h)

/-! ## C7: failure atomicity of load -/

/-- C7 counterexample: the text `42` parses as the JSON number `42`, which
is not a structurally valid document encoding, yet the load does not
signal a failure — every property access on the number yields `undefined`,
the truthiness defaults apply, and the state is overwritten (annotations,
proof steps and selection wiped, font size reset from 30 to 28; the
post-state is exactly `initState`).  So the claim that every structurally
invalid input signals a load failure and leaves the state at its
pre-operation value is false. -/
theorem c7_invalid_doc_accepted :
    loadEvent
        { initState with
            annotations := [⟨"text-1", 10, 20, "A", "#FF0000", 28⟩]
            proofSteps := [⟨"1", "", ""⟩]
            fontSize := 30
            selectedId := some "text-1" }
        (some (.num 42)) true none = some (initState, false) ∧
    initState
      ≠ { initState with
            annotations := [⟨"text-1", 10, 20, "A", "#FF0000", 28⟩]
            proofSteps := [⟨"1", "", ""⟩]
            fontSize := 30
            selectedId := some "text-1" } := by
  constructor
  · decide
  · decide

/-- C7 (amended): when the file text is not syntactically valid JSON
(`JSON.parse` throws), and likewise when the text is the valid-JSON `null`
(whose very first property access `data.imagePath` throws a TypeError),
the load signals a failure and leaves every field of the in-memory state
exactly at its pre-operation value.  Not every structurally invalid
document encoding fails, however: the text `42` is accepted without
failure, its fields defaulted (the counterexample above). -/
theorem c7_load_failure_atomic :
    (∀ (s : BoardState) (ok : Bool) (img : Option ImgData),
        loadEvent s none ok img = some (s, true)) ∧
    (∀ (s : BoardState) (ok : Bool) (img : Option ImgData),
        loadEvent s (some .null) ok img = some (s, true)) :=
  ⟨fun _ _ _ => rfl, fun _ _ _ => rfl⟩

/-! ## C1: serialize / deserialize round trip -/

/-- C1 counterexample: a document whose `fontSize` is `0` does not
round-trip — the loader's `data.fontSize || 28` defaulting replaces the
falsy value `0` by `28`, so the deserialized document differs from the
serialized one. -/
theorem c1_round_trip_counterexample :
    deserialize (serialize ⟨"", [], [], 0, false⟩) = some ⟨"", [], [], 28, false⟩ ∧
    deserialize (serialize ⟨"", [], [], 0, false⟩) ≠ some ⟨"", [], [], 0, false⟩ := by
  constructor
  · decide
  · decide

/-- C1 (amended): for every Project Document whose `fontSize` is nonzero
(any imagePath, any sequence of annotations, any sequence of proof steps,
any darkMode), deserializing the value produced by serializing the
document yields exactly the same document, with annotation and proof-step
order preserved.  A zero fontSize is the single exception: JavaScript
truthiness defaulting turns it into 28 on load. -/
theorem c1_round_trip (d : ProjectDoc) (hfs : d.fontSize ≠ 0) :
    deserialize (serialize d) = some d := by
  have h1 : (serialize d).getField "imagePath" = some (.str d.imagePath) := rfl
  have h2 : (serialize d).getField "annotations"
      = some (.arr (d.annotations.map annToJson)) := rfl
  have h3 : (serialize d).getField "proofSteps"
      = some (.arr (d.proofSteps.map stepToJson)) := rfl
  have h4 : (serialize d).getField "fontSize" = some (.num d.fontSize) := rfl
  have h5 : (serialize d).getField "isDarkMode" = some (.bool d.isDarkMode) := rfl
  have hp : decodePath (.str d.imagePath) = some d.imagePath := by
    by_cases hip : d.imagePath = ""
    · simp [decodePath, jsTruthy, hip]
    · simp [decodePath, jsTruthy, hip, decodeStr]
  have ha : decArr decodeAnnot (jsOr (.arr (d.annotations.map annToJson)) (.arr []))
      = some d.annotations := by
    simp only [jsOr, jsTruthy, if_pos]
    exact decAll_map decodeAnnot annToJson decodeAnnot_annToJson d.annotations
  have hs : decArr decodeStep (jsOr (.arr (d.proofSteps.map stepToJson)) (.arr []))
      = some d.proofSteps := by
    simp only [jsOr, jsTruthy, if_pos]
    exact decAll_map decodeStep stepToJson decodeStep_stepToJson d.proofSteps
  have hf : decodeNum (jsOr (.num d.fontSize) (.num 28)) = some d.fontSize := by
    simp [jsOr, jsTruthy, hfs, decodeNum]
  have hm : decodeBool (jsOr (.bool d.isDarkMode) (.bool false)) = some d.isDarkMode := by
    cases hdm : d.isDarkMode <;> simp [jsOr, jsTruthy, decodeBool]
  simp only [deserialize, h1, h2, h3, h4, h5, hp, ha, hs, hf, hm, Option.bind_eq_bind,
    Option.some_bind]
  rfl

/-- C1 witness: a concrete document with an image path, one annotation,
one proof step, font size 28 and dark mode round-trips exactly. -/
theorem c1_round_trip_witness :
    deserialize (serialize
        ⟨"fig.png", [⟨"text-1", 120, 80, "∠A", "#0000FF", 28⟩],
          [⟨"1", "given", "conclusion"⟩], 28, true⟩)
      = some ⟨"fig.png", [⟨"text-1", 120, 80, "∠A", "#0000FF", 28⟩],
          [⟨"1", "given", "conclusion"⟩], 28, true⟩ :=
  c1_round_trip
    ⟨"fig.png", [⟨"text-1", 120, 80, "∠A", "#0000FF", 28⟩],
      [⟨"1", "given", "conclusion"⟩], 28, true⟩ (by norm_num)

/-! ## C5: seeding of a blank proof step -/

/-- C5 counterexample: loading a document with an empty `proofSteps`
sequence after the application has mounted leaves zero proof steps — no
blank step is seeded, because the seeding `useEffect` has an empty
dependency array and runs only once, at mount. -/
theorem c5_seed_counterexample :
    loadEvent (mountEffect initState)
        (some (serialize ⟨"", [], [], 28, false⟩)) true none = some (initState, false) ∧
    initState.proofSteps = [] ∧
    ([] : List ProofStep) ≠ [⟨"1", "", ""⟩] := by
  refine ⟨by decide, by decide, by decide⟩

/-- C5 (amended): the single blank proof step `because = ''`,
`therefore = ''` is seeded only by the mount-time effect, when the list is
empty at first render; a load never seeds — after any successful load the
proof-step list is exactly the loaded document's sequence, including the
empty sequence. -/
theorem c5_seed_only_at_mount :
    (∀ s : BoardState, s.proofSteps = [] →
      (mountEffect s).proofSteps = [⟨"1", "", ""⟩]) ∧
    (∀ (s : BoardState) (j : Json) (ok : Bool) (img : Option ImgData) (d : ProjectDoc),
      deserialize j = some d → (d.imagePath ≠ "" → ok = true) →
      ∃ s', loadEvent s (some j) ok img = some (s', false) ∧
        s'.proofSteps = d.proofSteps) := by
  constructor
  · intro s hs
    simp [mountEffect, hs]
  · intro s j ok img d hd him
    exact ⟨_, loadEvent_success s j ok img d hd him, rfl⟩

/-- C5 witness: at mount the empty list is seeded with the single blank
step, and a subsequent load of an empty-`proofSteps` document succeeds and
yields the empty list (no re-seeding). -/
theorem c5_seed_only_at_mount_witness :
    (mountEffect initState).proofSteps = [⟨"1", "", ""⟩] ∧
    ∃ s', loadEvent (mountEffect initState)
        (some (serialize ⟨"", [], [], 28, false⟩)) true none = some (s', false) ∧
      s'.proofSteps = [] :=
  ⟨c5_seed_only_at_mount.1 initState rfl,
    c5_seed_only_at_mount.2 (mountEffect initState)
      (serialize ⟨"", [], [], 28, false⟩) true none ⟨"", [], [], 28, false⟩
      (by decide) (fun h => absurd rfl h)⟩

/-! ## C6: canvas-click insertion -/

/-- C6 counterexample: a click whose `Date.now()` reading (5 ms) equals
the reading that created an annotation already in the store produces a
second annotation with the very same identity `text-5` — the appended
identity is not fresh, so the claim as stated is false. -/
theorem c6_click_insert_counterexample :
    ((handleCanvasClick
        { initState with
            annotations := [⟨"text-5", 1, 1, "A", "#FF0000", 28⟩]
            pendingText := "B" }
        5 2 3).annotations.map TextAnnot.id) = ["text-5", "text-5"] ∧
    ¬ ((handleCanvasClick
        { initState with
            annotations := [⟨"text-5", 1, 1, "A", "#FF0000", 28⟩]
            pendingText := "B" }
        5 2 3).annotations.map TextAnnot.id).Pairwise (· ≠ ·) := by
  constructor
  · decide
  · decide

/-- C6 (amended): for every store state, a canvas click with an empty
pending token is a no-op on the whole state; a click with a non-empty
pending token `t` at `(x, y)` with current color `c` and font size `f`
appends exactly one annotation with fields `x, y, t, c, f` and identity
`text-<timestamp>`, makes it the selection, and clears the pending token —
so a single click inserts at most one annotation.  The appended identity
is fresh (all identities stay pairwise distinct) provided no existing
annotation carries the identity derived from the same clock reading. -/
theorem c6_click_insert (s : BoardState) (now : ℕ) (x y : ℚ) :
    (s.pendingText = "" → handleCanvasClick s now x y = s) ∧
    (s.pendingText ≠ "" →
      (handleCanvasClick s now x y).annotations
          = s.annotations
              ++ [⟨mkAnnId now, x, y, s.pendingText, s.currentColor, s.fontSize⟩] ∧
      (handleCanvasClick s now x y).selectedId = some (mkAnnId now) ∧
      (handleCanvasClick s now x y).pendingText = "" ∧
      ((s.annotations.map TextAnnot.id).Pairwise (· ≠ ·) →
        (∀ a ∈ s.annotations, a.id ≠ mkAnnId now) →
        ((handleCanvasClick s now x y).annotations.map TextAnnot.id).Pairwise (· ≠ ·))) := by
  constructor
  · intro h
    simp [handleCanvasClick, h]
  · intro h
    refine ⟨by simp [handleCanvasClick, h], by simp [handleCanvasClick, h],
      by simp [handleCanvasClick, h], ?_⟩
    intro hpw hfresh
    simp only [handleCanvasClick, if_neg h, List.map_append, List.map_cons, List.map_nil]
    rw [List.pairwise_append]
    refine ⟨hpw, List.pairwise_singleton _ _, ?_⟩
    intro a ha b hb
    rw [List.mem_singleton] at hb
    rw [List.mem_map] at ha
    obtain ⟨a0, ha0, rfl⟩ := ha
    rw [hb]
    exact hfresh a0 ha0

/-- C6 witness: the spec scenario — pending token `∠A`, color `#0000FF`,
font size 28, click at canvas position `(120, 80)` — yields exactly one
annotation with those fields, selected, and an empty pending token. -/
theorem c6_click_insert_witness :
    (handleCanvasClick
        { initState with pendingText := "∠A", currentColor := "#0000FF" }
        999 120 80).annotations
      = [⟨"text-999", 120, 80, "∠A", "#0000FF", 28⟩] ∧
    (handleCanvasClick
        { initState with pendingText := "∠A", currentColor := "#0000FF" }
        999 120 80).selectedId = some "text-999" ∧
    (handleCanvasClick
        { initState with pendingText := "∠A", currentColor := "#0000FF" }
        999 120 80).pendingText = "" := by
  have h := (c6_click_insert
    { initState with pendingText := "∠A", currentColor := "#0000FF" } 999 120 80).2
    (by decide)
  exact ⟨by rw [h.1]; decide, by rw [h.2.1]; decide, h.2.2.1⟩

/-! ## C2: identity uniqueness across inserts -/

/-- C2 (code bug): two inserts whose `Date.now()` readings fall in the
same millisecond (here both 1000) produce two annotations with the same
identity `text-1000`, so after this sequence of inserts the identities in
the store are not pairwise distinct and the second insert was not fresh.
The trace is: arm `A`, click at (10, 20), arm `B`, click at (30, 40), all
within the same clock millisecond. -/
theorem c2_duplicate_identity_bug :
    ((handleCanvasClick
        (armToken
          (handleCanvasClick (armToken (mountEffect initState) "A") 1000 10 20)
          "B")
        1000 30 40).annotations.map TextAnnot.id) = ["text-1000", "text-1000"] ∧
    ¬ ((handleCanvasClick
        (armToken
          (handleCanvasClick (armToken (mountEffect initState) "A") 1000 10 20)
          "B")
        1000 30 40).annotations.map TextAnnot.id).Pairwise (· ≠ ·) := by
  constructor
  · decide
  · decide

/-! ## C3: selection validity -/

/-- C3 (code bug): importing an image while an annotation is selected
clears the annotation store but leaves `selectedId` untouched, so the
reported selection still names identity `text-1000` while no annotation
with that identity exists — a reachable state violating the selection
invariant, and the selection after the import is not none as the claim
requires. -/
theorem c3_import_keeps_stale_selection :
    (handleImageImport
        (handleCanvasClick (armToken (mountEffect initState) "A") 1000 10 20)
        "fig.png" ⟨400, 300⟩).selectedId = some "text-1000" ∧
    (handleImageImport
        (handleCanvasClick (armToken (mountEffect initState) "A") 1000 10 20)
        "fig.png" ⟨400, 300⟩).annotations = [] := by
  constructor
  · decide
  · decide

/-! ## C4: fit scale on import -/

/-- C4 counterexample: there is no division-by-zero guard returning 1.0.
With a zero natural width (and viewport 800×50, natural height 100) the
width ratio is `Infinity` and the result is the height ratio 1/2, not 1.0;
and with a zero viewport width the result is 0, which is outside the
claimed interval (0, 1.0]. -/
theorem c4_fit_scale_counterexample :
    computeFitScale 800 50 0 100 = .finite (1 / 2) ∧ ((1 : ℚ) / 2) ≠ 1 ∧
    computeFitScale 0 600 100 100 = .finite 0 ∧ ¬ (0 < (0 : ℚ)) := by
  refine ⟨?_, by norm_num, ?_, by norm_num⟩
  · norm_num [computeFitScale, jsDiv, jsMin, min_def]
  · norm_num [computeFitScale, jsDiv, jsMin, min_def]

/-- C4 (amended): for every positive viewport size and positive natural
image size, the fit scale computed on import equals
`min(viewportW/naturalW, viewportH/naturalH, 1.0)`, lies in the interval
(0, 1.0], and never exceeds `min(viewportW/naturalW, viewportH/naturalH)`.
There is no division-by-zero guard: a zero natural dimension makes the
corresponding ratio `Infinity` (so the minimum is taken over the remaining
terms), and a zero viewport dimension with positive natural dimensions
yields 0. -/
theorem c4_fit_scale (vw vh nw nh : ℚ)
    (hvw : 0 < vw) (hvh : 0 < vh) (hnw : 0 < nw) (hnh : 0 < nh) :
    computeFitScale vw vh nw nh = .finite (min (vw / nw) (min (vh / nh) 1)) ∧
    0 < min (vw / nw) (min (vh / nh) 1) ∧
    min (vw / nw) (min (vh / nh) 1) ≤ 1 ∧
    min (vw / nw) (min (vh / nh) 1) ≤ min (vw / nw) (vh / nh) := by
  refine ⟨?_, ?_, ?_, ?_⟩
  · simp [computeFitScale, jsDiv, hnw.ne', hnh.ne', jsMin]
  · exact lt_min (div_pos hvw hnw) (lt_min (div_pos hvh hnh) one_pos)
  · exact (min_le_right _ _).trans (min_le_right _ _)
  · exact le_min (min_le_left _ _) ((min_le_right _ _).trans (min_le_left _ _))

/-- C4 witness: a 1000×1000 image in an 800×600 viewport gets fit scale
`min(800/1000, 600/1000, 1) = 3/5`, which is positive, at most 1, and at
most the viewport/image ratio minimum. -/
theorem c4_fit_scale_witness :
    computeFitScale 800 600 1000 1000
        = .finite (min ((800 : ℚ) / 1000) (min ((600 : ℚ) / 1000) 1)) ∧
    0 < min ((800 : ℚ) / 1000) (min ((600 : ℚ) / 1000) 1) ∧
    min ((800 : ℚ) / 1000) (min ((600 : ℚ) / 1000) 1) ≤ 1 ∧
    min ((800 : ℚ) / 1000) (min ((600 : ℚ) / 1000) 1)
        ≤ min ((800 : ℚ) / 1000) ((600 : ℚ) / 1000) :=
  c4_fit_scale 800 600 1000 1000 (by norm_num) (by norm_num) (by norm_num) (by norm_num)

/-! ## C8: zoom definition and clamp convergence -/

/-- Zooming in acts on a finite scale as `min (q * 1.2) 3`. -/
theorem jsZoomIn_finite (q : ℚ) : jsZoomIn (.finite q) = .finite (qZoomIn q) := rfl

/-- Zooming out acts on a finite scale as `max (q / 1.2) 0.1`. -/
theorem jsZoomOut_finite (q : ℚ) : jsZoomOut (.finite q) = .finite (qZoomOut q) := rfl

/-- Iterated zoom-in stays finite and is the iterate of the rational
clamp function. -/
theorem jsZoomIn_iterate_finite (n : ℕ) (q : ℚ) :
    jsZoomIn^[n] (.finite q) = .finite (qZoomIn^[n] q) := by
  induction n generalizing q with
  | zero => rfl
  | succ k ih =>
      rw [Function.iterate_succ_apply, Function.iterate_succ_apply, jsZoomIn_finite, ih]

/-- Iterated zoom-out stays finite and is the iterate of the rational
clamp function. -/
theorem jsZoomOut_iterate_finite (n : ℕ) (q : ℚ) :
    jsZoomOut^[n] (.finite q) = .finite (qZoomOut^[n] q) := by
  induction n generalizing q with
  | zero => rfl
  | succ k ih =>
      rw [Function.iterate_succ_apply, Function.iterate_succ_apply, jsZoomOut_finite, ih]

/-- Closed form of iterated zoom-in: after `n + 1` steps the scale is
`min (s * 1.2 ^ (n + 1)) 3`. -/
theorem qZoomIn_iterate_formula (n : ℕ) (s : ℚ) :
    qZoomIn^[n + 1] s = min (s * 1.2 ^ (n + 1)) 3 := by
  induction n with
  | zero =>
      rw [Function.iterate_one, qZoomIn, pow_one]
  | succ k ih =>
      rw [Function.iterate_succ_apply', ih, qZoomIn,
        (monotone_mul_right_of_nonneg (by norm_num : (0:ℚ) ≤ 1.2)).map_min,
        min_assoc]
      have h1 : s * 1.2 ^ (k + 1) * 1.2 = s * 1.2 ^ (k + 2) := by ring
      have h2 : min ((3:ℚ) * 1.2) 3 = 3 := min_eq_right (by norm_num)
      rw [h1, h2]

/-- Closed form of iterated zoom-out: after `n + 1` steps the scale is
`max (s / 1.2 ^ (n + 1)) 0.1`. -/
theorem qZoomOut_iterate_formula (n : ℕ) (s : ℚ) :
    qZoomOut^[n + 1] s = max (s / 1.2 ^ (n + 1)) 0.1 := by
  induction n with
  | zero =>
      rw [Function.iterate_one, qZoomOut, pow_one]
  | succ k ih =>
      rw [Function.iterate_succ_apply', ih, qZoomOut]
      simp only [div_eq_mul_inv]
      rw [(monotone_mul_right_of_nonneg (by norm_num : (0:ℚ) ≤ 1.2⁻¹)).map_max,
        max_assoc]
      have h1 : s * (1.2 ^ (k + 1) : ℚ)⁻¹ * 1.2⁻¹ = s * (1.2 ^ (k + 2) : ℚ)⁻¹ := by
        rw [mul_assoc, ← mul_inv]
        norm_num [pow_succ]
      have h2 : max ((0.1:ℚ) * 1.2⁻¹) 0.1 = 0.1 := max_eq_right (by norm_num)
      rw [h1, h2]

/-- From any positive starting scale, repeated zoom-in reaches the clamp
value 3 and stays there. -/
theorem qZoomIn_converges (s : ℚ) (hs : 0 < s) :
    ∃ N, ∀ n, N ≤ n → qZoomIn^[n] s = 3 := by
  obtain ⟨k, hk⟩ := pow_unbounded_of_one_lt (3 / s) (by norm_num : (1:ℚ) < 1.2)
  refine ⟨k + 1, fun n hn => ?_⟩
  obtain ⟨m, rfl⟩ : ∃ m, n = m + 1 := ⟨n - 1, by omega⟩
  rw [qZoomIn_iterate_formula]
  apply min_eq_right
  rw [div_lt_iff₀ hs] at hk
  have hpow : (1.2:ℚ) ^ k ≤ 1.2 ^ (m + 1) := pow_le_pow_right₀ (by norm_num) (by omega)
  nlinarith
/-- From any starting scale at all, repeated zoom-out reaches the clamp
value 0.1 and stays there. -/
theorem qZoomOut_converges (s : ℚ) :
    ∃ N, ∀ n, N ≤ n → qZoomOut^[n] s = 0.1 := by
  rcases le_or_lt s 0 with hs | hs
  · refine ⟨1, fun n hn => ?_⟩
    obtain ⟨m, rfl⟩ : ∃ m, n = m + 1 := ⟨n - 1, by omega⟩
    rw [qZoomOut_iterate_formula]
    apply max_eq_right
    have hp : (0:ℚ) < 1.2 ^ (m + 1) := pow_pos (by norm_num) _
    exact (div_nonpos_of_nonpos_of_nonneg hs hp.le).trans (by norm_num)
  · obtain ⟨k, hk⟩ := pow_unbounded_of_one_lt (10 * s) (by norm_num : (1:ℚ) < 1.2)
    refine ⟨k + 1, fun n hn => ?_⟩
    obtain ⟨m, rfl⟩ : ∃ m, n = m + 1 := ⟨n - 1, by omega⟩
    rw [qZoomOut_iterate_formula]
    apply max_eq_right
    have hpk : (0:ℚ) < 1.2 ^ k := pow_pos (by norm_num) k
    have hle : (1.2:ℚ) ^ k ≤ 1.2 ^ (m + 1) := pow_le_pow_right₀ (by norm_num) (by omega)
    have h1 : s / 1.2 ^ (m + 1) ≤ s / 1.2 ^ k := div_le_div_of_nonneg_left hs.le hpk hle
    have h2 : s / 1.2 ^ k < 1 / 10 := by
      rw [div_lt_div_iff₀ hpk (by norm_num)]
      linarith
    have : (0.1:ℚ) = 1 / 10 := by norm_num
    linarith

/-- C8 counterexample: repeatedly zooming in from scale 0 never converges
to 3 — the scale is stuck at 0 forever (`min (0 * 1.2) 3 = 0`), so the
claim's convergence from any starting scale is false. -/
theorem c8_zoom_counterexample :
    (∀ n : ℕ, jsZoomIn^[n] (.finite 0) = .finite 0) ∧
    JsNum.finite 0 ≠ .finite 3 := by
  constructor
  · intro n
    rw [jsZoomIn_iterate_finite]
    have h : qZoomIn 0 = 0 := by norm_num [qZoomIn, min_def]
    have hiter : ∀ m : ℕ, qZoomIn^[m] 0 = 0 := by
      intro m
      induction m with
      | zero => rfl
      | succ k ih => rw [Function.iterate_succ_apply', ih, h]
    rw [hiter]
  · decide

/-- C8 (amended): for every finite scale `s`, `zoomIn` returns
`min (s * 1.2, 3.0)` and `zoomOut` returns `max (s / 1.2, 0.1)`.
Repeatedly applying `zoomIn` from any **positive** starting scale
converges to and then stays at 3.0 (from a scale ≤ 0 it never reaches 3);
repeatedly applying `zoomOut` from any starting scale converges to and
then stays at 0.1. -/
theorem c8_zoom_clamp (s : ℚ) :
    jsZoomIn (.finite s) = .finite (min (s * 1.2) 3) ∧
    jsZoomOut (.finite s) = .finite (max (s / 1.2) 0.1) ∧
    (0 < s → ∃ N, ∀ n, N ≤ n → jsZoomIn^[n] (.finite s) = .finite 3) ∧
    (∃ N, ∀ n, N ≤ n → jsZoomOut^[n] (.finite s) = .finite 0.1) := by
  refine ⟨rfl, rfl, ?_, ?_⟩
  · intro hs
    obtain ⟨N, hN⟩ := qZoomIn_converges s hs
    exact ⟨N, fun n hn => by rw [jsZoomIn_iterate_finite, hN n hn]⟩
  · obtain ⟨N, hN⟩ := qZoomOut_converges s
    exact ⟨N, fun n hn => by rw [jsZoomOut_iterate_finite, hN n hn]⟩

/-- C8 witness: from scale 2, zoom-in evaluates to `min (2 * 1.2) 3`,
zoom-out to `max (2 / 1.2) 0.1`, iterated zoom-in eventually stays at 3,
and iterated zoom-out eventually stays at 0.1. -/
theorem c8_zoom_clamp_witness :
    jsZoomIn (.finite 2) = .finite (min (2 * 1.2) 3) ∧
    jsZoomOut (.finite 2) = .finite (max (2 / 1.2) 0.1) ∧
    (∃ N, ∀ n, N ≤ n → jsZoomIn^[n] (.finite 2) = .finite 3) ∧
    (∃ N, ∀ n, N ≤ n → jsZoomOut^[n] (.finite 2) = .finite 0.1) :=
  ⟨(c8_zoom_clamp 2).1, (c8_zoom_clamp 2).2.1,
    (c8_zoom_clamp 2).2.2.1 (by norm_num), (c8_zoom_clamp 2).2.2.2⟩
